import Mathlib

/-!
Verification of the streaming NDJSON ingestion and aggregation pipeline of
cargo-phabricator, as a shallow embedding of src/jsonl.rs, src/check.rs,
src/fmt.rs, src/test.rs and src/phab.rs.

Modelling conventions:
- Bytes are naturals; a raw line is a list of bytes.
- The buffered reader feeding read_until calls is modelled as the list of
  results those calls return: each entry is either an io error or the bytes
  read (including the terminating newline when one was found); once the list
  is exhausted further reads return zero bytes, which is end of input.
- serde_json and io are external collaborators: their outcomes are passed in
  as parameters (parse and decode functions, spawn and wait outcomes), with
  their opaque error payloads modelled as Unit.
- JSON values are a small inductive, enough for the discriminant inspection
  done by get_reason_json_lines (Value::get on an object and as_str).
- Paths are lists of components, so that strip_prefix is component-wise drop,
  as Path::strip_prefix is.
- eprintln warnings are modelled as an explicit warning list returned by the
  Warning Filter; println reporting (Lint::report) is not modelled.
-/

namespace CargoPhab

abbrev Byte := Nat

abbrev Line := List Byte

/-- The sequence of results successive read_until(newline) calls return from
the buffered stdout reader.  An entry carries the bytes read including the
newline terminator when one was present; after the list ends, reads yield
zero bytes (end of input). -/
abbrev Reader := List (Except Unit Line)

/-- A JSON value, as much of serde_json::Value as the pipeline inspects. -/
inductive Json where
  | null
  | bool (b : Bool)
  | num (n : Int)
  | str (s : String)
  | arr (elems : List Json)
  | obj (fields : List (String × Json))

/-- serde_json::Value::get on an object (None on any other value). -/
def Json.get (v : Json) (key : String) : Option Json :=
  match v with
  | .obj fields => fields.lookup key
  | _ => none

/-- serde_json::Value::as_str. -/
def Json.asStr (v : Json) : Option String :=
  match v with
  | .str s => some s
  | _ => none

/-- jsonl.rs StreamValuesError: ReadLine is an io failure of the reader,
ParseLine a serde failure carrying the offending bytes. -/
inductive StreamValuesError where
  | readLine (e : Unit)
  | parseLine (e : Unit) (line : Line)
deriving DecidableEq

/-- jsonl.rs Error. -/
inductive Error where
  | spawn (e : Unit)
  | waitChild (e : Unit)
  | exitStatus (status : Nat)
  | streamValue (e : StreamValuesError)
  | parseValue (e : Unit)
deriving DecidableEq

/-- jsonl.rs Context::stream_values, lines 105-124.  One reader line is read
per unfold step; a zero-byte read ends the stream; a parse failure yields
ParseLine with the offending bytes and, exactly as futures try_unfold does,
ends the stream after that error item. -/
def streamValues {T : Type} (parse : Line → Except Unit T) :
    Reader → List (Except StreamValuesError T)
  | [] => []
  | .error e :: _ => [.error (.readLine e)]
  | .ok l :: rest =>
    if l.isEmpty then []
    else
      match parse l with
      | .ok v => .ok v :: streamValues parse rest
      | .error e => [.error (.parseLine e l)]

/-- Splits a byte stream into the lines successive read_until(newline) calls
would return: each produced line contains the newline terminator when one was
found, and a final newline-less chunk is returned as read_until does at end
of input.  The accumulator holds the bytes of the current line reversed. -/
def splitAfterNl (acc : Line) : List Byte → List Line
  | [] => if acc.isEmpty then [] else [acc.reverse]
  | b :: rest =>
    if b = 10 then (acc.reverse ++ [b]) :: splitAfterNl [] rest
    else splitAfterNl (b :: acc) rest

/-- The reader a byte stream gives rise to: every read succeeds and returns
the next newline-terminated line. -/
def bytesReader (input : List Byte) : Reader :=
  (splitAfterNl [] input).map Except.ok

/-- A launch specification, the fields of tokio::process::Command the
pipeline sets. -/
structure Command where
  program : String
  args : List String
  killOnDrop : Bool
  stdoutPiped : Bool
deriving DecidableEq

/-- A spawned child: its captured stdout, the outcome of wait_with_output
(io error or exit status, with status 0 meaning success), and whether the
handle was configured to kill the process when dropped. -/
structure Child where
  stdout : Reader
  wait : Except Unit Nat
  killOnDrop : Bool

/-- cmd.stdout(Stdio::piped()) as done by get_stdout_json_lines line 88. -/
def setStdoutPiped (cmd : Command) : Command :=
  { cmd with stdoutPiped := true }

/-- Spawning: the child inherits the kill_on_drop configuration recorded on
the command, as tokio::process::Command::spawn does. -/
def spawnChild (cmd : Command) (stdout : Reader) (wait : Except Unit Nat) : Child :=
  { stdout := stdout, wait := wait, killOnDrop := cmd.killOnDrop }

/-- tokio documented contract of kill_on_drop: the child is killed when its
handle is dropped before completion exactly when the flag was set.  This is
the shallow proxy for teardown on early abandonment of the stream. -/
def Child.killedOnAbandon (c : Child) : Bool :=
  c.killOnDrop

/-- jsonl.rs Context::get_stdout_json_lines, lines 85-103.  On spawn failure
the whole stream is the single fatal Spawn error.  Otherwise the decoded
stdout stream is chained with the wait step: after the stream ends, a wait
failure or a non-zero exit status is appended as one final fatal item, and a
zero status appends nothing. -/
def getStdoutJsonLines {T : Type} (parse : Line → Except Unit T) :
    Except Unit Child → List (Except Error T)
  | .error e => [.error (.spawn e)]
  | .ok c =>
    (streamValues parse c.stdout).map (Except.mapError Error.streamValue) ++
      (match c.wait with
       | .error e => [.error (.waitChild e)]
       | .ok status => if status ≠ 0 then [.error (.exitStatus status)] else [])

/-- The per-item body of the filter_map inside get_reason_json_lines, lines
67-81: errors pass through; a value whose reason discriminant is absent or
differs from the expected tag is dropped; a matching value is decoded, a
decode failure becoming the recoverable ParseValue error. -/
def reasonStep {T : Type} (decode : Json → Except Unit T) (reason : String) :
    Except Error Json → Option (Except Error T)
  | .error e => some (.error e)
  | .ok value =>
    if (value.get "reason").bind Json.asStr ≠ some reason then none
    else
      match decode value with
      | .error e => some (.error (.parseValue e))
      | .ok v => some (.ok v)

/-- jsonl.rs Context::get_reason_json_lines, lines 64-83. -/
def getReasonJsonLines {T : Type} (parse : Line → Except Unit Json)
    (decode : Json → Except Unit T) (reason : String)
    (spawn : Except Unit Child) : List (Except Error T) :=
  (getStdoutJsonLines parse spawn).filterMap (reasonStep decode reason)

/-- One warning printed to stderr by filter_reported. -/
inductive Warning where
  | parseLine (e : Unit) (line : Line)
  | parseValue (e : Unit)
deriving DecidableEq

/-- jsonl.rs FilterReportedExt::filter_reported, lines 31-61: successes pass
through, ParseLine and ParseValue errors are dropped with a warning, every
other error passes through.  Returns the surviving items and the warnings. -/
def filterReported {T : Type} :
    List (Except Error T) → List (Except Error T) × List Warning
  | [] => ([], [])
  | .ok v :: rest =>
    let (items, warns) := filterReported rest
    (.ok v :: items, warns)
  | .error (.streamValue (.parseLine e line)) :: rest =>
    let (items, warns) := filterReported rest
    (items, .parseLine e line :: warns)
  | .error (.parseValue e) :: rest =>
    let (items, warns) := filterReported rest
    (items, .parseValue e :: warns)
  | .error e :: rest =>
    let (items, warns) := filterReported rest
    (.error e :: items, warns)

/-- test.rs lines 40-44: the cargo test --no-run build command, configured
with kill_on_drop(true) before being handed to the process stream. -/
def testBuildCommand : Command :=
  { program := "cargo"
    args := ["test", "--message-format", "json", "--no-run"]
    killOnDrop := true
    stdoutPiped := false }

/-- test.rs lines 68-74: the command run_test builds for one test
executable, configured with kill_on_drop(true). -/
def runTestCommand (executable : String) : Command :=
  { program := executable
    args := []
    killOnDrop := true
    stdoutPiped := false }

/-- phab.rs Severity. -/
inductive Severity where
  | advice
  | autofix
  | warning
  | error
  | disabled
deriving DecidableEq

/-- phab.rs Lint, with the path held as components. -/
structure Lint where
  name : String
  code : String
  severity : Severity
  path : List String
  description : Option String
  line : Option Nat
  column : Option Nat
deriving DecidableEq

/-- check.rs LintLevel. -/
inductive LintLevel where
  | error
  | warning
  | note
  | help
  | failureNote
deriving DecidableEq

/-- check.rs lines 34-44: the From LintLevel for Severity conversion. -/
def severityOfLintLevel : LintLevel → Severity
  | .error => .error
  | .warning => .warning
  | .note => .advice
  | .help => .advice
  | .failureNote => .error

/-- check.rs SpanSchema, the file name held as path components. -/
structure SpanSchema where
  columnStart : Nat
  lineStart : Nat
  fileName : List String
  isPrimary : Bool
deriving DecidableEq

/-- check.rs CodeSchema. -/
structure CodeSchema where
  code : String
deriving DecidableEq

/-- check.rs MessageSchema. -/
structure MessageSchema where
  rendered : String
  level : LintLevel
  code : Option CodeSchema
  spans : List SpanSchema
  message : String
deriving DecidableEq

/-- check.rs TargetSchema, src_path held as components. -/
structure TargetSchema where
  srcPath : List String
deriving DecidableEq

/-- check.rs LintSchema. -/
structure LintSchema where
  message : MessageSchema
  target : TargetSchema
deriving DecidableEq

/-- Path::strip_prefix(dir).unwrap_or(path): drop the leading components
when dir is a component-wise leading part of path, otherwise keep path. -/
def stripDir (dir p : List String) : List String :=
  if dir.isPrefixOf p then p.drop dir.length else p

/-- check.rs lines 117-148: from one decoded compiler-message diagnostic to
the lint record pushed onto the batch, or none when the message carries no
machine-readable code.  With a primary span the location is that span line,
column and file; without one the location falls back to the build target
src_path with the arcconfig directory stripped, and no line or column. -/
def checkLintOf (arcconfig : List String) (l : LintSchema) : Option Lint :=
  match l.message.code with
  | none => none
  | some c =>
    let code := "CHECK" ++ c.code
    let description := "```\n" ++ l.message.rendered.trim ++ "\n```"
    match l.message.spans.find? (fun s => s.isPrimary) with
    | some span =>
      some { name := l.message.message
             code := code
             severity := severityOfLintLevel l.message.level
             line := some span.lineStart
             column := some span.columnStart
             path := span.fileName
             description := some description }
    | none =>
      some { name := l.message.message
             code := code
             severity := severityOfLintLevel l.message.level
             line := none
             column := none
             path := stripDir arcconfig l.target.srcPath
             description := some description }

/-- check.rs lines 93-152, the reading loop.  parseReason is the serde
decode of a line into ReasonSchema (its reason string); parseLint the decode
into LintSchema.  Returns the accumulated batch together with some io error
when a read failed (the loop then stops, as the question mark operator
returns early), or none when the loop reached a zero-byte read. -/
def checkLoop (parseReason : Line → Except Unit String)
    (parseLint : Line → Except Unit LintSchema) (arcconfig : List String) :
    Reader → List Lint → List Lint × Option Unit
  | [], lints => (lints, none)
  | .error e :: _, lints => (lints, some e)
  | .ok l :: rest, lints =>
    if l.isEmpty then (lints, none)
    else
      match parseReason l with
      | .ok reason =>
        if reason = "compiler-message" then
          match parseLint l with
          | .ok schema =>
            match checkLintOf arcconfig schema with
            | some lint => checkLoop parseReason parseLint arcconfig rest (lints ++ [lint])
            | none => checkLoop parseReason parseLint arcconfig rest lints
          | .error _ => checkLoop parseReason parseLint arcconfig rest lints
        else
          checkLoop parseReason parseLint arcconfig rest lints
      | .error _ => checkLoop parseReason parseLint arcconfig rest lints

/-- check.rs Error. -/
inductive CheckError where
  | spawnCargoCheck (e : Unit)
  | readLine (e : Unit)
  | publishLints (e : Unit)
  | waitChild (e : Unit)
  | exitStatus (status : Nat)
deriving DecidableEq

/-- What one subcommand run did: the batch it accumulated, the payload of
each publish_work call it made, and its returned result. -/
structure RunOutcome (ε : Type) where
  batch : List Lint
  publishCalls : List (List Lint)
  result : Except ε Unit

/-- check.rs Context::check, lines 80-166.  The spawn outcome and the
publish_work outcome are the external collaborators.  A read failure returns
early before the wait and before any publication; a wait failure returns
early before any publication; publication happens exactly when the batch is
non-empty, and the exit status is examined only afterwards. -/
def check (parseReason : Line → Except Unit String)
    (parseLint : Line → Except Unit LintSchema) (arcconfig : List String)
    (spawn : Except Unit Child)
    (publish : List Lint → Except Unit Unit) : RunOutcome CheckError :=
  match spawn with
  | .error e => { batch := [], publishCalls := [], result := .error (.spawnCargoCheck e) }
  | .ok child =>
    match checkLoop parseReason parseLint arcconfig child.stdout [] with
    | (lints, some e) => { batch := lints, publishCalls := [], result := .error (.readLine e) }
    | (lints, none) =>
      match child.wait with
      | .error e => { batch := lints, publishCalls := [], result := .error (.waitChild e) }
      | .ok status =>
        if lints.isEmpty then
          if status ≠ 0 then
            { batch := lints, publishCalls := [], result := .error (.exitStatus status) }
          else
            { batch := lints, publishCalls := [], result := .ok () }
        else
          match publish lints with
          | .error e =>
            { batch := lints, publishCalls := [lints], result := .error (.publishLints e) }
          | .ok _ =>
            if status ≠ 0 then
              { batch := lints, publishCalls := [lints], result := .error (.exitStatus status) }
            else
              { batch := lints, publishCalls := [lints], result := .ok () }

/-- fmt.rs Error. -/
inductive FmtError where
  | spawnCargoFmt (e : Unit)
  | readLine (e : Unit)
  | publishLints (e : Unit)
  | waitChild (e : Unit)
  | exitStatus (status : Nat)
deriving DecidableEq

/-- fmt.rs MismatchSchema. -/
structure MismatchSchema where
  expected : String
  expectedBeginLine : Nat
  expectedEndLine : Nat
  original : String
  originalBeginLine : Nat
  originalEndLine : Nat
deriving DecidableEq

/-- fmt.rs FileSchema, the name held as path components. -/
structure FileSchema where
  name : List String
  mismatches : List MismatchSchema
deriving DecidableEq

/-- The diff half emitted by make_lint for one of the original or expected
texts: one sign-prefixed line per newline-separated part, nothing when the
text is empty. -/
def diffLines (sign : String) (s : String) : String :=
  if s = "" then ""
  else String.join ((s.splitOn "\n").map (fun line => sign ++ line ++ "\n"))

/-- fmt.rs make_lint, lines 37-60 (its Result is always Ok). -/
def makeLint (file : List String) (m : MismatchSchema) : Lint :=
  { name := "format mismatch"
    code := "RUSTFMT"
    severity := .error
    path := file
    description := some ("```lang=diff\n" ++ diffLines "-" m.original ++
      diffLines "+" m.expected ++ "```")
    line := some m.originalEndLine
    column := none }

/-- fmt.rs lines 76-99, the reading loop: each line decodes into a list of
file mismatch reports; a decode failure warns and continues; every mismatch
of every file becomes one lint with the arcconfig directory stripped from
the file name. -/
def fmtLoop (parseFiles : Line → Except Unit (List FileSchema))
    (arcconfig : List String) :
    Reader → List Lint → List Lint × Option Unit
  | [], lints => (lints, none)
  | .error e :: _, lints => (lints, some e)
  | .ok l :: rest, lints =>
    if l.isEmpty then (lints, none)
    else
      match parseFiles l with
      | .error _ => fmtLoop parseFiles arcconfig rest lints
      | .ok files =>
        fmtLoop parseFiles arcconfig rest
          (lints ++ files.flatMap (fun f =>
            f.mismatches.map (makeLint (stripDir arcconfig f.name))))

/-- fmt.rs Context::fmt, lines 63-113, same spine as check. -/
def fmt (parseFiles : Line → Except Unit (List FileSchema))
    (arcconfig : List String) (spawn : Except Unit Child)
    (publish : List Lint → Except Unit Unit) : RunOutcome FmtError :=
  match spawn with
  | .error e => { batch := [], publishCalls := [], result := .error (.spawnCargoFmt e) }
  | .ok child =>
    match fmtLoop parseFiles arcconfig child.stdout [] with
    | (lints, some e) => { batch := lints, publishCalls := [], result := .error (.readLine e) }
    | (lints, none) =>
      match child.wait with
      | .error e => { batch := lints, publishCalls := [], result := .error (.waitChild e) }
      | .ok status =>
        if lints.isEmpty then
          if status ≠ 0 then
            { batch := lints, publishCalls := [], result := .error (.exitStatus status) }
          else
            { batch := lints, publishCalls := [], result := .ok () }
        else
          match publish lints with
          | .error e =>
            { batch := lints, publishCalls := [lints], result := .error (.publishLints e) }
          | .ok _ =>
            if status ≠ 0 then
              { batch := lints, publishCalls := [lints], result := .error (.exitStatus status) }
            else
              { batch := lints, publishCalls := [lints], result := .ok () }

/-! Concrete data used by the evaluations below.  The parse functions model
the outcome serde_json has on the concrete inputs involved; in particular
serde_json rejects whitespace-only input, so a line consisting of a bare
newline fails to decode. -/

/-- serde outcome on the C1 input lines: only the open-brace close-brace
newline line is valid JSON. -/
def parseBraces : Line → Except Unit Nat :=
  fun l => if l = [123, 125, 10] then .ok 1 else .error ()

/-- serde outcome on the C7 input lines: the line with byte a then newline
decodes, anything else, in particular the whitespace-only bare newline
line, fails. -/
def parseA : Line → Except Unit Nat :=
  fun l => if l = [97, 10] then .ok 0 else .error ()

/-- A command left with the default kill_on_drop, as any caller other than
test.rs would pass to the process stream layer. -/
def plainCommand : Command :=
  { program := "cargo", args := [], killOnDrop := false, stdoutPiped := false }

/-- A JSON value whose reason discriminant differs from the expected tag. -/
def mismatchValue : Json := .obj [("reason", .str "build-finished")]

/-- A JSON value whose reason discriminant equals the expected tag. -/
def matchValue : Json := .obj [("reason", .str "compiler-artifact")]

/-- A decodable compiler-message diagnostic carrying a code and no spans. -/
def sampleSchema : LintSchema :=
  { message :=
    { rendered := "warning: unused"
      level := .warning
      code := some { code := "W0001" }
      spans := []
      message := "unused" }
    target := { srcPath := ["src", "main.rs"] } }

/-- A compiler-message diagnostic carrying no machine-readable code. -/
def codelessSchema : LintSchema :=
  { message :=
    { rendered := "warning: 2 warnings emitted"
      level := .warning
      code := none
      spans := []
      message := "2 warnings emitted" }
    target := { srcPath := ["src", "main.rs"] } }

/-- A diagnostic with a code, no primary span, and a src_path under the
arcconfig directory. -/
def noPrimarySchema : LintSchema :=
  { message :=
    { rendered := "error: boom"
      level := .error
      code := some { code := "E0001" }
      spans := []
      message := "boom" }
    target := { srcPath := ["repo", "src", "main.rs"] } }

/-- A diagnostic with a primary span at line 10, column 4 of src/a.rs. -/
def primarySchema : LintSchema :=
  { message :=
    { rendered := "warning: w"
      level := .warning
      code := some { code := "W0002" }
      spans := [{ columnStart := 4, lineStart := 10, fileName := ["src", "a.rs"],
                  isPrimary := true }]
      message := "w" }
    target := { srcPath := ["repo", "src", "a.rs"] } }

/-- serde outcome treating every line as a compiler-message. -/
def prAll : Line → Except Unit String := fun _ => .ok "compiler-message"

/-- serde outcome decoding every line into sampleSchema. -/
def plAll : Line → Except Unit LintSchema := fun _ => .ok sampleSchema

/-- A publish_work collaborator that always succeeds. -/
def pubOk : List Lint → Except Unit Unit := fun _ => .ok ()

/-- A file decode collaborator for fmt that always fails. -/
def pfErr : Line → Except Unit (List FileSchema) := fun _ => .error ()

/-! Helper lemmas shared by the claim theorems. -/

/-- Every line splitAfterNl produces is nonempty: a produced line either
ends in the newline just read or is the nonempty final chunk. -/
theorem splitAfterNl_ne_nil (input : List Byte) :
    ∀ acc, ([] : Line) ∉ splitAfterNl acc input := by
  induction input with
  | nil =>
    intro acc
    simp only [splitAfterNl]
    split
    · simp
    · rename_i h
      simp only [List.mem_singleton]
      intro he
      rw [List.isEmpty_iff] at h
      exact h (by simpa using he.symm)
  | cons b rest ih =>
    intro acc
    simp only [splitAfterNl]
    split
    · intro hmem
      rcases List.mem_cons.mp hmem with h | h
      · exact absurd h.symm (by simp)
      · exact ih [] h
    · exact ih (b :: acc)

/-- How one check run behaves once the child spawned, by cases on the loop
and wait outcomes: the batch is what the loop accumulated, publication
happens exactly when the loop ended without a read failure, the wait
succeeded, and the batch is non-empty, and the run succeeds exactly when
additionally the exit status is zero and any attempted publication
succeeded. -/
theorem check_ok_cases (pr : Line → Except Unit String)
    (pl : Line → Except Unit LintSchema) (arc : List String) (stdout : Reader)
    (w : Except Unit Nat) (k : Bool) (pub : List Lint → Except Unit Unit) :
    (check pr pl arc (.ok ⟨stdout, w, k⟩) pub).batch = (checkLoop pr pl arc stdout []).1 ∧
    (check pr pl arc (.ok ⟨stdout, w, k⟩) pub).publishCalls =
      (match (checkLoop pr pl arc stdout []).2, w with
       | none, .ok _ =>
         if (checkLoop pr pl arc stdout []).1.isEmpty then []
         else [(checkLoop pr pl arc stdout []).1]
       | _, _ => []) ∧
    ((check pr pl arc (.ok ⟨stdout, w, k⟩) pub).result = .ok () ↔
      ((checkLoop pr pl arc stdout []).2 = none ∧ w = .ok 0 ∧
        ((checkLoop pr pl arc stdout []).1.isEmpty = true ∨
          pub (checkLoop pr pl arc stdout []).1 = .ok ()))) := by
  rcases hl : checkLoop pr pl arc stdout [] with ⟨lints, rerr⟩
  cases rerr with
  | some e => simp [check, hl]
  | none =>
    cases w with
    | error e0 => simp [check, hl]
    | ok s =>
      by_cases hb : lints.isEmpty
      · by_cases hs : s = 0
        · simp [check, hl, hb, hs]
        · simp [check, hl, hb, hs]
      · cases hp : pub lints with
        | error e1 => simp [check, hl, hb, hp]
        | ok u =>
          by_cases hs : s = 0
          · simp [check, hl, hb, hp, hs]
          · simp [check, hl, hb, hp, hs]

/-- The fmt analogue of the check case analysis. -/
theorem fmt_ok_cases (pf : Line → Except Unit (List FileSchema))
    (arc : List String) (stdout : Reader)
    (w : Except Unit Nat) (k : Bool) (pub : List Lint → Except Unit Unit) :
    (fmt pf arc (.ok ⟨stdout, w, k⟩) pub).batch = (fmtLoop pf arc stdout []).1 ∧
    (fmt pf arc (.ok ⟨stdout, w, k⟩) pub).publishCalls =
      (match (fmtLoop pf arc stdout []).2, w with
       | none, .ok _ =>
         if (fmtLoop pf arc stdout []).1.isEmpty then []
         else [(fmtLoop pf arc stdout []).1]
       | _, _ => []) ∧
    ((fmt pf arc (.ok ⟨stdout, w, k⟩) pub).result = .ok () ↔
      ((fmtLoop pf arc stdout []).2 = none ∧ w = .ok 0 ∧
        ((fmtLoop pf arc stdout []).1.isEmpty = true ∨
          pub (fmtLoop pf arc stdout []).1 = .ok ()))) := by
  rcases hl : fmtLoop pf arc stdout [] with ⟨lints, rerr⟩
  cases rerr with
  | some e => simp [fmt, hl]
  | none =>
    cases w with
    | error e0 => simp [fmt, hl]
    | ok s =>
      by_cases hb : lints.isEmpty
      · by_cases hs : s = 0
        · simp [fmt, hl, hb, hs]
        · simp [fmt, hl, hb, hs]
      · cases hp : pub lints with
        | error e1 => simp [fmt, hl, hb, hp]
        | ok u =>
          by_cases hs : s = 0
          · simp [fmt, hl, hb, hp, hs]
          · simp [fmt, hl, hb, hp, hs]

/-! The claims. -/

/-- Claim C1, divergence at the failing input: on the byte stream x newline
y newline open-brace close-brace newline, holding two undecodable lines
followed by one decodable line, stream_values ends the stream at the first
parse failure (try_unfold yields the error item and stops unfolding), so the
pipeline composed with the warning filter yields no item and only one
warning, although one decodable line follows the malformed ones.  The claim
says one item and two warnings, with lines after a malformed line still read
and decoded. -/
theorem pipeline_stops_at_first_malformed_line :
    bytesReader [120, 10, 121, 10, 123, 125, 10] =
      [.ok [120, 10], .ok [121, 10], .ok [123, 125, 10]] ∧
    streamValues parseBraces (bytesReader [120, 10, 121, 10, 123, 125, 10]) =
      [.error (.parseLine () [120, 10])] ∧
    filterReported ((streamValues parseBraces
        (bytesReader [120, 10, 121, 10, 123, 125, 10])).map
        (Except.mapError Error.streamValue)) =
      ([], [.parseLine () [120, 10]]) :=
  ⟨rfl, rfl, rfl⟩

/-- Claim C2: when the child exits with non-zero status s after its stdout
decoded into the items list, the process stream is exactly those items in
source order followed by one fatal ExitStatus error as its last item; the
error follows every genuine item and appears although every item decoded
successfully. -/
theorem nonzero_exit_terminal {T : Type} (parse : Line → Except Unit T)
    (stdout : Reader) (k : Bool) (items : List T) (s : Nat)
    (hitems : streamValues parse stdout = items.map Except.ok)
    (hs : s ≠ 0) :
    getStdoutJsonLines parse (.ok ⟨stdout, .ok s, k⟩) =
      items.map Except.ok ++ [.error (.exitStatus s)] := by
  simp [getStdoutJsonLines, hitems, hs, List.map_map, Function.comp, Except.mapError]

/-- Witness for C2 at one decoded item and exit status 1. -/
theorem nonzero_exit_terminal_witness :
    getStdoutJsonLines (fun _ => (Except.ok 0 : Except Unit Nat))
      (.ok ⟨[.ok [48, 10]], .ok 1, true⟩) = [.ok 0, .error (.exitStatus 1)] := by
  have h := nonzero_exit_terminal (fun _ => (Except.ok 0 : Except Unit Nat))
    [.ok [48, 10]] true [0] 1 rfl (by decide)
  simpa using h

/-- Claim C3 counterexample: a read failure arriving after one lint was
collected returns early out of check with a non-empty batch and no publish
call at all, while the claim requires exactly one submission whenever the
batch is non-empty, for fatal read failures included. -/
theorem read_failure_skips_publication :
    (check prAll plAll [] (.ok ⟨[.ok [49, 10], .error ()], .ok 0, false⟩) pubOk).batch.length = 1 ∧
    (check prAll plAll [] (.ok ⟨[.ok [49, 10], .error ()], .ok 0, false⟩) pubOk).publishCalls = [] ∧
    (check prAll plAll [] (.ok ⟨[.ok [49, 10], .error ()], .ok 0, false⟩) pubOk).result =
      .error (.readLine ()) :=
  ⟨rfl, rfl, rfl⟩

/-- Claim C3 amended: in check and fmt alike, when the reading loop reached
end of input without a read failure and the wait succeeded, exactly one
submission carrying the whole accumulated batch is made when the batch is
non-empty, and none when it is empty, regardless of the exit status; a
spawn failure leaves an empty batch and makes no submission; a read failure
or a wait failure returns early and makes no submission even when the batch
is non-empty. -/
theorem single_publish_call (pr : Line → Except Unit String)
    (pl : Line → Except Unit LintSchema) (pf : Line → Except Unit (List FileSchema))
    (arc : List String) (stdout : Reader) (w : Except Unit Nat) (k : Bool) (s : Nat)
    (pub pubf : List Lint → Except Unit Unit) :
    ((check pr pl arc (.error ()) pub).batch = [] ∧
      (check pr pl arc (.error ()) pub).publishCalls = []) ∧
    ((checkLoop pr pl arc stdout []).2.isSome = true →
      (check pr pl arc (.ok ⟨stdout, w, k⟩) pub).publishCalls = []) ∧
    ((checkLoop pr pl arc stdout []).2 = none →
      (check pr pl arc (.ok ⟨stdout, .error (), k⟩) pub).publishCalls = []) ∧
    ((checkLoop pr pl arc stdout []).2 = none →
      (check pr pl arc (.ok ⟨stdout, .ok s, k⟩) pub).publishCalls =
        if (check pr pl arc (.ok ⟨stdout, .ok s, k⟩) pub).batch.isEmpty then []
        else [(check pr pl arc (.ok ⟨stdout, .ok s, k⟩) pub).batch]) ∧
    ((fmt pf arc (.error ()) pubf).batch = [] ∧
      (fmt pf arc (.error ()) pubf).publishCalls = []) ∧
    ((fmtLoop pf arc stdout []).2.isSome = true →
      (fmt pf arc (.ok ⟨stdout, w, k⟩) pubf).publishCalls = []) ∧
    ((fmtLoop pf arc stdout []).2 = none →
      (fmt pf arc (.ok ⟨stdout, .error (), k⟩) pubf).publishCalls = []) ∧
    ((fmtLoop pf arc stdout []).2 = none →
      (fmt pf arc (.ok ⟨stdout, .ok s, k⟩) pubf).publishCalls =
        if (fmt pf arc (.ok ⟨stdout, .ok s, k⟩) pubf).batch.isEmpty then []
        else [(fmt pf arc (.ok ⟨stdout, .ok s, k⟩) pubf).batch]) := by
  refine ⟨⟨rfl, rfl⟩, ?_, ?_, ?_, ⟨rfl, rfl⟩, ?_, ?_, ?_⟩
  · intro hsome
    rw [(check_ok_cases pr pl arc stdout w k pub).2.1]
    rcases h2 : (checkLoop pr pl arc stdout []).2 with _ | e
    · rw [h2] at hsome; simp at hsome
    · rfl
  · intro hnone
    rw [(check_ok_cases pr pl arc stdout (.error ()) k pub).2.1, hnone]
  · intro hnone
    rw [(check_ok_cases pr pl arc stdout (.ok s) k pub).2.1, hnone,
      (check_ok_cases pr pl arc stdout (.ok s) k pub).1]
  · intro hsome
    rw [(fmt_ok_cases pf arc stdout w k pubf).2.1]
    rcases h2 : (fmtLoop pf arc stdout []).2 with _ | e
    · rw [h2] at hsome; simp at hsome
    · rfl
  · intro hnone
    rw [(fmt_ok_cases pf arc stdout (.error ()) k pubf).2.1, hnone]
  · intro hnone
    rw [(fmt_ok_cases pf arc stdout (.ok s) k pubf).2.1, hnone,
      (fmt_ok_cases pf arc stdout (.ok s) k pubf).1]

/-- Witness for C3 at a one-lint run with a clean read and zero exit. -/
theorem single_publish_call_witness :
    (check prAll plAll [] (.ok ⟨[.ok [49, 10]], .ok 0, false⟩) pubOk).publishCalls =
      [(check prAll plAll [] (.ok ⟨[.ok [49, 10]], .ok 0, false⟩) pubOk).batch] := by
  have h := (single_publish_call prAll plAll pfErr [] [.ok [49, 10]] (.ok 0) false 0
    pubOk pubOk).2.2.2.1 rfl
  rw [h]
  rfl

/-- Claim C4 counterexample: get_stdout_json_lines does not itself arrange
teardown; a child spawned through it from a command that left kill_on_drop
unset is not killed when the consumer abandons the stream early. -/
theorem abandoned_child_not_killed :
    (spawnChild (setStdoutPiped plainCommand) [] (.ok 0)).killedOnAbandon = false :=
  rfl

/-- Claim C4 amended: teardown on early abandonment is exactly the
kill_on_drop configuration the launched command carried; both commands the
test pipeline constructs set it, so the children of this repository process
streams are killed when the stream is dropped early. -/
theorem test_children_killed_on_abandon :
    ∀ (stdout : Reader) (w : Except Unit Nat) (exe : String) (cmd : Command),
      (spawnChild (setStdoutPiped testBuildCommand) stdout w).killedOnAbandon = true ∧
      (spawnChild (runTestCommand exe) stdout w).killedOnAbandon = true ∧
      (spawnChild (setStdoutPiped cmd) stdout w).killedOnAbandon = cmd.killOnDrop :=
  fun _ _ _ _ => ⟨rfl, rfl, rfl⟩

/-- Claim C5: in the reason filter, a value whose discriminant is absent or
differs from the expected tag is dropped silently; a value whose
discriminant matches but which fails to decode becomes the recoverable
ParseValue error, which the warning filter then converts into a dropped
item plus a warning instead of a fatal abort. -/
theorem reason_filter_asymmetry {T : Type} (decode : Json → Except Unit T)
    (reason : String) (v : Json) :
    ((v.get "reason").bind Json.asStr ≠ some reason →
      reasonStep decode reason (.ok v) = none) ∧
    (∀ e, (v.get "reason").bind Json.asStr = some reason → decode v = .error e →
      reasonStep decode reason (.ok v) = some (.error (.parseValue e)) ∧
      filterReported [(.error (.parseValue e) : Except Error T)] =
        ([], [.parseValue e])) := by
  constructor
  · intro h
    simp [reasonStep, h]
  · intro e hmatch hdec
    refine ⟨?_, rfl⟩
    simp [reasonStep, hmatch, hdec]

/-- Witness for C5 at a mismatching and a matching discriminant. -/
theorem reason_filter_asymmetry_witness :
    reasonStep (fun _ => (Except.error () : Except Unit Nat)) "compiler-artifact"
      (.ok mismatchValue) = none ∧
    reasonStep (fun _ => (Except.error () : Except Unit Nat)) "compiler-artifact"
      (.ok matchValue) = some (.error (.parseValue ())) :=
  ⟨(reason_filter_asymmetry (fun _ => (Except.error () : Except Unit Nat))
      "compiler-artifact" mismatchValue).1 (by decide),
   ((reason_filter_asymmetry (fun _ => (Except.error () : Except Unit Nat))
      "compiler-artifact" matchValue).2 () (by decide) rfl).1⟩

/-- Claim C6 counterexample: a run collecting one lint, publishing it
successfully, with the child exiting zero, returns success although the
batch is non-empty; the claim requires a failure exit for every non-empty
batch. -/
theorem nonempty_batch_can_return_success :
    (check prAll plAll [] (.ok ⟨[.ok [49, 10]], .ok 0, false⟩) pubOk).batch.length = 1 ∧
    (check prAll plAll [] (.ok ⟨[.ok [49, 10]], .ok 0, false⟩) pubOk).publishCalls.length = 1 ∧
    (check prAll plAll [] (.ok ⟨[.ok [49, 10]], .ok 0, false⟩) pubOk).result = .ok () :=
  ⟨rfl, rfl, rfl⟩

/-- Claim C6 amended: check and fmt return success exactly when the child
spawned, the reading loop finished without a read failure, the wait
delivered exit status zero, and any attempted publication (attempted
exactly when the batch is non-empty) succeeded; a non-empty batch by itself
does not cause a failure exit.  main maps an error result to a non-zero
process exit. -/
theorem failure_iff_pipeline_or_publication_failed
    (pr : Line → Except Unit String) (pl : Line → Except Unit LintSchema)
    (pf : Line → Except Unit (List FileSchema)) (arc : List String)
    (stdout : Reader) (w : Except Unit Nat) (k : Bool)
    (pub pubf : List Lint → Except Unit Unit) :
    (∀ e, (check pr pl arc (.error e) pub).result = .error (.spawnCargoCheck e)) ∧
    ((check pr pl arc (.ok ⟨stdout, w, k⟩) pub).result = .ok () ↔
      ((checkLoop pr pl arc stdout []).2 = none ∧ w = .ok 0 ∧
        ((checkLoop pr pl arc stdout []).1.isEmpty = true ∨
          pub (checkLoop pr pl arc stdout []).1 = .ok ()))) ∧
    (∀ e, (fmt pf arc (.error e) pubf).result = .error (.spawnCargoFmt e)) ∧
    ((fmt pf arc (.ok ⟨stdout, w, k⟩) pubf).result = .ok () ↔
      ((fmtLoop pf arc stdout []).2 = none ∧ w = .ok 0 ∧
        ((fmtLoop pf arc stdout []).1.isEmpty = true ∨
          pubf (fmtLoop pf arc stdout []).1 = .ok ()))) :=
  ⟨fun _ => rfl, (check_ok_cases pr pl arc stdout w k pub).2.2,
   fun _ => rfl, (fmt_ok_cases pf arc stdout w k pubf).2.2⟩

/-- Witness for C6 at a one-lint run with zero exit and successful
publication. -/
theorem failure_iff_witness :
    (check prAll plAll [] (.ok ⟨[.ok [49, 10]], .ok 0, false⟩) pubOk).result = .ok () :=
  (failure_iff_pipeline_or_publication_failed prAll plAll pfErr []
    [.ok [49, 10]] (.ok 0) false pubOk pubOk).2.1.mpr ⟨rfl, rfl, Or.inr rfl⟩

/-- Claim C7 counterexample: on the input a newline newline, ending in a
trailing blank line, read_until returns the one-byte line holding the bare
newline, which is not empty, so it reaches the decoder, which rejects
whitespace-only input, and the stream yields a ParseLine decode failure
rather than terminating cleanly after the last real line. -/
theorem blank_line_reaches_decoder :
    bytesReader [97, 10, 10] = [.ok [97, 10], .ok [10]] ∧
    streamValues parseA (bytesReader [97, 10, 10]) =
      [.ok 0, .error (.parseLine () [10])] :=
  ⟨rfl, rfl⟩

/-- Claim C7 amended: a zero-byte read (end of input) ends the value stream
cleanly, and the line-reading layer itself only ever hands over nonempty
lines; a nonempty whitespace-only line however is handed to the decoder,
and when the decoder rejects it the stream yields the recoverable ParseLine
failure instead of terminating cleanly. -/
theorem empty_read_ends_stream {T : Type} (parse : Line → Except Unit T) :
    streamValues parse ([] : Reader) = [] ∧
    (∀ rest, streamValues parse (.ok [] :: rest) = []) ∧
    (∀ input, (Except.ok ([] : Line)) ∉ bytesReader input) ∧
    (∀ l e rest, l.isEmpty = false → parse l = .error e →
      streamValues parse (.ok l :: rest) = [.error (.parseLine e l)]) := by
  refine ⟨rfl, fun rest => rfl, ?_, ?_⟩
  · intro input hmem
    rcases List.mem_map.mp hmem with ⟨l, hl, he⟩
    have h0 : l = [] := by
      cases he
      rfl
    rw [h0] at hl
    exact splitAfterNl_ne_nil input [] hl
  · intro l e rest hne hp
    simp [streamValues, hne, hp]

/-- Witness for C7 at a whitespace-only line the decoder rejects. -/
theorem empty_read_ends_stream_witness :
    streamValues parseA ([] : Reader) = [] ∧
    streamValues parseA [.ok [10]] = [.error (.parseLine () [10])] :=
  ⟨(empty_read_ends_stream parseA).1,
   (empty_read_ends_stream parseA).2.2.2 [10] () [] rfl rfl⟩

/-- Claim C8 counterexample: for a diagnostic without a primary span whose
src_path lies under the arcconfig directory, the produced record path is the
src_path with that directory stripped, not the src_path itself as the claim
states. -/
theorem fallback_path_is_stripped :
    (checkLintOf ["repo"] noPrimarySchema).map Lint.path = some ["src", "main.rs"] ∧
    noPrimarySchema.target.srcPath = ["repo", "src", "main.rs"] ∧
    ((["src", "main.rs"] : List String) == ["repo", "src", "main.rs"]) = false :=
  ⟨rfl, rfl, rfl⟩

/-- Claim C8 amended: for a diagnostic carrying a code, a primary span maps
to a record locating exactly that line and column in that span file, and
the absence of a primary span maps to a record with no line and no column
whose path is the build target src_path relativized by stripping the
arcconfig directory when it is a leading part of it. -/
theorem span_location_mapping (arc : List String) (l : LintSchema)
    (c : CodeSchema) (hc : l.message.code = some c) :
    (∀ span, l.message.spans.find? (fun s => s.isPrimary) = some span →
      checkLintOf arc l = some
        { name := l.message.message
          code := "CHECK" ++ c.code
          severity := severityOfLintLevel l.message.level
          line := some span.lineStart
          column := some span.columnStart
          path := span.fileName
          description := some ("```\n" ++ l.message.rendered.trim ++ "\n```") }) ∧
    (l.message.spans.find? (fun s => s.isPrimary) = none →
      checkLintOf arc l = some
        { name := l.message.message
          code := "CHECK" ++ c.code
          severity := severityOfLintLevel l.message.level
          line := none
          column := none
          path := stripDir arc l.target.srcPath
          description := some ("```\n" ++ l.message.rendered.trim ++ "\n```") }) := by
  constructor
  · intro span hspan
    simp [checkLintOf, hc, hspan]
  · intro hspan
    simp [checkLintOf, hc, hspan]

/-- Witness for C8 at a diagnostic with primary span line 10 column 4 in
src/a.rs. -/
theorem span_location_mapping_witness :
    (checkLintOf ["repo"] primarySchema).map (fun l => (l.line, l.column, l.path)) =
      some (some 10, some 4, ["src", "a.rs"]) := by
  have h := (span_location_mapping ["repo"] primarySchema { code := "W0002" } rfl).1
    { columnStart := 4, lineStart := 10, fileName := ["src", "a.rs"], isPrimary := true } rfl
  rw [h]
  rfl

/-- Claim C9: a compiler-message diagnostic whose message carries no
machine-readable code produces no lint at all: checkLintOf yields none, and
the check loop steps over such a line leaving the batch untouched, whatever
the severity of the message. -/
theorem codeless_message_skipped (arc : List String) (ls : LintSchema)
    (hcode : ls.message.code = none) :
    checkLintOf arc ls = none ∧
    ∀ (pr : Line → Except Unit String) (pl : Line → Except Unit LintSchema)
      (l : Line) (rest : Reader) (lints : List Lint),
      l.isEmpty = false → pr l = .ok "compiler-message" → pl l = .ok ls →
      checkLoop pr pl arc (.ok l :: rest) lints = checkLoop pr pl arc rest lints := by
  have h1 : checkLintOf arc ls = none := by simp [checkLintOf, hcode]
  refine ⟨h1, ?_⟩
  intro pr pl l rest lints hne hpr hpl
  simp [checkLoop, hne, hpr, hpl, h1]

/-- Witness for C9 at a warnings-emitted summary message without a code. -/
theorem codeless_message_skipped_witness :
    checkLintOf [] codelessSchema = none ∧
    checkLoop (fun _ => .ok "compiler-message") (fun _ => .ok codelessSchema) []
        [.ok [102]] [] =
      checkLoop (fun _ => .ok "compiler-message") (fun _ => .ok codelessSchema) [] [] [] :=
  ⟨(codeless_message_skipped [] codelessSchema rfl).1,
   (codeless_message_skipped [] codelessSchema rfl).2 _ _ [102] [] [] rfl rfl rfl⟩

/-- Claim C10: the severity conversion is total and fixed: error to error,
warning to warning, note and help to advice, failure-note to error; its
range stays within error, warning and advice, so no input level ever maps
to autofix or disabled. -/
theorem severity_mapping_total_and_fixed :
    severityOfLintLevel .error = .error ∧
    severityOfLintLevel .warning = .warning ∧
    severityOfLintLevel .note = .advice ∧
    severityOfLintLevel .help = .advice ∧
    severityOfLintLevel .failureNote = .error ∧
    ∀ l : LintLevel,
      severityOfLintLevel l ∈ [Severity.error, Severity.warning, Severity.advice] := by
  refine ⟨rfl, rfl, rfl, rfl, rfl, ?_⟩
  intro l
  cases l <;> simp [severityOfLintLevel]

end CargoPhab
